import Mathlib

/-!
Verification development for the mood-playlist-recommender repository.

The Python sources (`mood_detector.py`, `main.py`, `config.py`,
`spotify_client.py`) are shallowly embedded below.  Loosely typed Python
values that flow through the Spotify-facing validation code are modelled by
the inductive `PyVal`; the typed records produced by
`_extract_playlist_info` are modelled by the structure `PlaylistInfo`.
External effects (the camera, the network search call, `random.choice`,
`webbrowser.open`) are modelled as explicit function parameters, so every
definition is a total computable function of its inputs.
-/

namespace MoodSpec

/-- A loosely typed Python value, as handled by the validation code in
`spotify_client.py`.  Dictionaries are association lists keyed by strings. -/
inductive PyVal where
  | none : PyVal
  | str : String → PyVal
  | int : Int → PyVal
  | dict : List (String × PyVal) → PyVal
  | list : List PyVal → PyVal

/-- Python truthiness for the modelled values: `None`, the empty string,
the number 0, the empty dict and the empty list are falsy. -/
def pyTruthy : PyVal → Bool
  | .none => false
  | .str s => s ≠ ""
  | .int n => n ≠ 0
  | .dict d => !d.isEmpty
  | .list l => !l.isEmpty

/-- Python `d.get(k, dflt)` on a dictionary. -/
def pyGetD (d : List (String × PyVal)) (k : String) (dflt : PyVal) : PyVal :=
  (d.lookup k).getD dflt

/-- Python `d.get(k)` on a dictionary (default `None`). -/
def pyGet (d : List (String × PyVal)) (k : String) : PyVal :=
  pyGetD d k PyVal.none

/-- Python `v == 0` for the modelled values: only the number 0 compares
equal to 0; strings, dicts, lists and `None` never do. -/
def pyEqZero : PyVal → Bool
  | .int n => n = 0
  | _ => false

/- ## mood_detector.py -/

/-- The detector counts returned by `MoodDetector.detect_faces_and_features`:
numbers of face, smile and eye bounding boxes found in a frame. -/
structure Features where
  faces : Nat
  smiles : Nat
  eyes : Nat
deriving DecidableEq, Repr

/-- `MoodDetector.simple_emotion_logic` (mood_detector.py, lines 108-126):
no faces yields no label; otherwise any smile box yields happy, else two or
more eye boxes yield neutral, else sad. -/
def simple_emotion_logic (features : Features) : Option String :=
  if features.faces = 0 then Option.none
  else if features.smiles > 0 then some "happy"
  else if features.eyes ≥ 2 then some "neutral"
  else some "sad"

/-- `MoodDetector.emotions` (mood_detector.py, line 39): the fixed rotation
list for demo mode. -/
def emotions : List String := ["happy", "sad", "neutral", "angry", "surprise"]

/-- The mutable rotation state of `MoodDetector`
(`current_emotion_index`, `last_emotion_time`), threaded explicitly.
Wall-clock times are modelled as integers. -/
structure RotationState where
  current_emotion_index : Nat
  last_emotion_time : Int
deriving DecidableEq, Repr

/-- `emotion_duration` (mood_detector.py, line 42). -/
def emotion_duration : Int := 10

/-- `MoodDetector.demo_emotion_rotation` (mood_detector.py, lines 128-143),
as a function of the rotation state and the current wall-clock time.
Returns the emitted label and the updated state. -/
def demo_emotion_rotation (s : RotationState) (current_time : Int) :
    String × RotationState :=
  if current_time - s.last_emotion_time > emotion_duration then
    let i := (s.current_emotion_index + 1) % emotions.length
    (emotions.getD i "", ⟨i, current_time⟩)
  else
    (emotions.getD s.current_emotion_index "", s)

/-- `MoodDetector.detect_mood_from_frame` (mood_detector.py, lines 145-171),
as a function of the detector counts for the frame, the rotation state and
the current time.  Mirrors the source: with at least one face the label from
`simple_emotion_logic` is returned when truthy; otherwise control falls
through to the demo rotation. -/
def detect_mood_from_frame (features : Features) (s : RotationState)
    (current_time : Int) : String × RotationState :=
  if features.faces > 0 then
    match simple_emotion_logic features with
    | some emotion =>
        if emotion ≠ "" then (emotion, s)
        else demo_emotion_rotation s current_time
    | Option.none => demo_emotion_rotation s current_time
  else demo_emotion_rotation s current_time

/- ## main.py: the stability gate of detect_mood_single_cycle -/

/-- The transient state of the stability gate in
`MoodPlaylistRecommender.detect_mood_single_cycle` (main.py, lines 160-214):
the held label (`last_mood`) and the consecutive-repeat counter
(`mood_stability_count`). -/
structure GateState where
  last_mood : Option String
  mood_stability_count : Nat
deriving DecidableEq, Repr

/-- `required_stability` (main.py, line 173). -/
def required_stability : Nat := 3

/-- One iteration of the stability-handling block (main.py, lines 190-197):
a missing detection leaves the state untouched; a detection matching the
held label increments the counter; a different detection replaces the held
label and resets the counter to 1. -/
def gate_step (s : GateState) (detected_mood : Option String) : GateState :=
  match detected_mood with
  | Option.none => s
  | some m =>
      if s.last_mood = some m then
        { s with mood_stability_count := s.mood_stability_count + 1 }
      else
        ⟨some m, 1⟩

/-- Runs the `while mood_stability_count < required_stability` loop of
`detect_mood_single_cycle` over a finite list of per-attempt detections,
starting from state `s` with `i0` attempts already consumed.  Returns the
confirmed label and the 1-based position of the confirming attempt, or
`none` when the list is exhausted before confirmation. -/
def gate_runAux (s : GateState) (i0 : Nat) :
    List (Option String) → Option (String × Nat)
  | [] => Option.none
  | d :: rest =>
      let s2 := gate_step s d
      if s2.mood_stability_count ≥ required_stability then
        some (s2.last_mood.getD "", i0 + 1)
      else
        gate_runAux s2 (i0 + 1) rest

/-- `detect_mood_single_cycle` (main.py, lines 160-214) restricted to its
stability gate, fed a finite list of per-attempt detections; initial state
has no held label and counter 0. -/
def detect_mood_single_cycle (attempts : List (Option String)) :
    Option (String × Nat) :=
  gate_runAux ⟨Option.none, 0⟩ 0 attempts

/- ## config.py / main.py: mood keywords -/

/-- `Config.MOOD_MAPPING` (config.py, lines 13-21), as an association list. -/
def MOOD_MAPPING : List (String × List String) :=
  [("happy", ["happy", "party", "upbeat", "energetic", "dance"]),
   ("sad", ["sad", "melancholy", "blues", "emotional", "heartbreak"]),
   ("angry", ["rock", "metal", "aggressive", "intense", "hardcore"]),
   ("fear", ["ambient", "calm", "peaceful", "meditation", "relaxing"]),
   ("surprise", ["pop", "hits", "trending", "viral", "popular"]),
   ("disgust", ["alternative", "indie", "experimental", "underground"]),
   ("neutral", ["chill", "lofi", "background", "study", "focus"])]

/-- `MoodPlaylistRecommender.get_mood_keywords` (main.py, lines 63-73):
`MOOD_MAPPING.get(detected_mood, MOOD_MAPPING[neutral-key])`. -/
def get_mood_keywords (detected_mood : String) : List String :=
  (MOOD_MAPPING.lookup detected_mood).getD
    ((MOOD_MAPPING.lookup "neutral").getD [])

/- ## spotify_client.py -/

/-- `SpotifyClient._is_valid_playlist` (spotify_client.py, lines 69-99) on a
raw result dictionary.  Mirrors the source checks in order: the dict itself
truthy, then each of name / external_urls / tracks / owner truthy, then
tracks a dict whose total (default 0) is not Python-equal to 0, then
external_urls a dict with a truthy spotify entry, then owner a dict. -/
def is_valid_playlist (playlist : List (String × PyVal)) : Bool :=
  if playlist.isEmpty then false
  else if ¬ pyTruthy (pyGet playlist "name") then false
  else if ¬ pyTruthy (pyGet playlist "external_urls") then false
  else if ¬ pyTruthy (pyGet playlist "tracks") then false
  else if ¬ pyTruthy (pyGet playlist "owner") then false
  else
    match pyGet playlist "tracks" with
    | .dict td =>
        if pyEqZero (pyGetD td "total" (.int 0)) then false
        else
          match pyGet playlist "external_urls" with
          | .dict ed =>
              if ¬ pyTruthy (pyGet ed "spotify") then false
              else
                match pyGet playlist "owner" with
                | .dict _ => true
                | _ => false
          | _ => false
    | _ => false

/-- The flat candidate record produced by
`SpotifyClient._extract_playlist_info` (spotify_client.py, lines 101-144). -/
structure PlaylistInfo where
  name : String
  url : String
  description : String
  tracks_count : Int
  owner : String
  image : String
deriving DecidableEq, Repr

/-- The loop body of `SpotifyClient._remove_duplicates`
(spotify_client.py, lines 146-168), with the `seen_urls` set threaded as a
list: a candidate is kept when its url is truthy (non-empty) and not seen. -/
def remove_duplicatesAux (seen_urls : List String) :
    List PlaylistInfo → List PlaylistInfo
  | [] => []
  | p :: rest =>
      if p.url ≠ "" ∧ p.url ∉ seen_urls then
        p :: remove_duplicatesAux (p.url :: seen_urls) rest
      else
        remove_duplicatesAux seen_urls rest

/-- `SpotifyClient._remove_duplicates` (spotify_client.py, lines 146-168). -/
def remove_duplicates (playlists : List PlaylistInfo) : List PlaylistInfo :=
  remove_duplicatesAux [] playlists

/-- The `all_playlists` accumulator of `search_mood_playlists`
(spotify_client.py, lines 190-239): the candidates that survive per-item
validation, extraction and the truthy-url check for every processed
keyword, concatenated in keyword order.  `collected k n` stands for the
surviving candidates of keyword `k` at search limit `n` (the network
response itself is external); falsy or non-string keywords are skipped. -/
def all_playlists (collected : String → Nat → List PlaylistInfo)
    (ks : List PyVal) (limit : Nat) : List PlaylistInfo :=
  (ks.filterMap (fun k =>
    match k with
    | PyVal.str s =>
        if s = "" then Option.none
        else some (collected s (min limit 50))
    | _ => Option.none)).flatten

/-- `SpotifyClient.search_mood_playlists` (spotify_client.py, lines
170-248).  `authenticated` models `self.sp` being set.  The keyword
argument is a loosely typed Python value, matching the guards in the
source: unauthenticated, a falsy argument or a non-list argument each
yield the empty list; otherwise the accumulated candidates are
de-duplicated. -/
def search_mood_playlists (authenticated : Bool)
    (collected : String → Nat → List PlaylistInfo)
    (mood_keywords : PyVal) (limit : Nat) : List PlaylistInfo :=
  if ¬ authenticated then []
  else
    match mood_keywords with
    | .list ks =>
        if ks.isEmpty then []
        else remove_duplicates (all_playlists collected ks limit)
    | _ => []

/-- The quality filter of `get_mood_playlist_recommendation`
(spotify_client.py, lines 278-281): keep candidates with at least 10
tracks, falling back to the full list when none qualify. -/
def quality_pool (playlists : List PlaylistInfo) : List PlaylistInfo :=
  let quality := playlists.filter (fun p => 10 ≤ p.tracks_count)
  if quality.isEmpty then playlists else quality

/-- `SpotifyClient.get_mood_playlist_recommendation`
(spotify_client.py, lines 250-290).  `choice` models `random.choice`. -/
def get_mood_playlist_recommendation (authenticated : Bool)
    (collected : String → Nat → List PlaylistInfo)
    (choice : List PlaylistInfo → Option PlaylistInfo)
    (mood_keywords : List String) : Option PlaylistInfo :=
  if mood_keywords.isEmpty then Option.none
  else
    let playlists :=
      search_mood_playlists authenticated collected
        (PyVal.list (mood_keywords.map PyVal.str)) 20
    let playlists2 :=
      if playlists.isEmpty then
        search_mood_playlists authenticated collected
          (PyVal.list [PyVal.str "music", PyVal.str "playlist",
            PyVal.str "songs"]) 10
      else playlists
    if playlists2.isEmpty then Option.none
    else choice (quality_pool playlists2)

/-- Python `s.startswith(pre)`, computed on the underlying character
lists. -/
def py_startswith (s pre : String) : Bool :=
  pre.data.isPrefixOf s.data

/-- `SpotifyClient.open_playlist_in_browser` (spotify_client.py, lines
292-314).  `openAttempt s` models `webbrowser.open(s)` finishing without
an exception.  Returns the function's boolean result together with the
list of URLs actually handed to the browser facility. -/
def open_playlist_in_browser (openAttempt : String → Bool)
    (playlist_url : PyVal) : Bool × List String :=
  match playlist_url with
  | .str s =>
      if s = "" then (false, [])
      else if ¬ py_startswith s "https://open.spotify.com/" then (false, [])
      else (openAttempt s, [s])
  | _ => (false, [])

/- ## Predicates taken from the specification text (for refinement claims) -/

/-- The acceptance condition exactly as claim C3 words it: a non-empty
name, a non-empty external playlist URL, a track collection with
`total > 0`, and an owner object. -/
def spec_accepts (p : List (String × PyVal)) : Bool :=
  pyTruthy (pyGet p "name") &&
  (match pyGet p "external_urls" with
   | .dict ed => pyTruthy (pyGet ed "spotify")
   | _ => false) &&
  (match pyGet p "tracks" with
   | .dict td =>
       (match pyGet td "total" with
        | .int n => decide (0 < n)
        | _ => false)
   | _ => false) &&
  (match pyGet p "owner" with
   | .dict od => ¬ od.isEmpty
   | _ => false)

/-- De-duplication exactly as claim C4 words it: for each URL value keep
the first candidate bearing it, discard all later ones, preserving
first-seen order. -/
def dedup_first_by_url : List PlaylistInfo → List PlaylistInfo
  | [] => []
  | p :: rest =>
      p :: dedup_first_by_url (rest.filter (fun q => q.url ≠ p.url))
termination_by l => l.length
decreasing_by
  simpa using Nat.lt_succ_of_le (List.length_filter_le _ _)

/- ## Claim theorems -/

/-- Claim C1, as stated, is false: at detector counts
(faces, smiles, eyes) = (0, 1, 0) the function returns no label (falling
through to the rotation fallback), whereas the clause "smiles>0 implies
the label is happy" demands the direct label happy. -/
theorem C1_counterexample :
    simple_emotion_logic ⟨0, 1, 0⟩ = Option.none ∧
    ¬ (∀ f : Features, f.smiles > 0 →
        simple_emotion_logic f = some "happy") := by
  refine ⟨rfl, fun h => ?_⟩
  have h2 := h ⟨0, 1, 0⟩ (by decide)
  simp [simple_emotion_logic] at h2

/-- Claim C1 (amended): the faces = 0 test takes priority.  For every
triple of detector counts: faces = 0 gives no direct label and the
fallback rotation value is used; with at least one face, smiles > 0 gives
happy, else eyes >= 2 gives neutral, else sad, and that direct label is
returned by detect_mood_from_frame with the rotation state untouched. -/
theorem C1_mood_inference (f : Features) (s : RotationState) (t : Int) :
    (f.faces = 0 →
      simple_emotion_logic f = Option.none ∧
      detect_mood_from_frame f s t = demo_emotion_rotation s t) ∧
    (f.faces > 0 → f.smiles > 0 →
      simple_emotion_logic f = some "happy" ∧
      detect_mood_from_frame f s t = ("happy", s)) ∧
    (f.faces > 0 → f.smiles = 0 → f.eyes ≥ 2 →
      simple_emotion_logic f = some "neutral" ∧
      detect_mood_from_frame f s t = ("neutral", s)) ∧
    (f.faces > 0 → f.smiles = 0 → f.eyes < 2 →
      simple_emotion_logic f = some "sad" ∧
      detect_mood_from_frame f s t = ("sad", s)) := by
  refine ⟨fun h0 => ?_, fun hf hs => ?_, fun hf hs he => ?_,
    fun hf hs he => ?_⟩
  · constructor
    · simp [simple_emotion_logic, h0]
    · simp [detect_mood_from_frame, h0]
  · have h0 : ¬ f.faces = 0 := by omega
    have hlogic : simple_emotion_logic f = some "happy" := by
      simp [simple_emotion_logic, h0, hs]
    exact ⟨hlogic, by simp [detect_mood_from_frame, hf, hlogic]⟩
  · have h0 : ¬ f.faces = 0 := by omega
    have hs2 : ¬ f.smiles > 0 := by omega
    have hlogic : simple_emotion_logic f = some "neutral" := by
      simp [simple_emotion_logic, h0, hs2, he]
    exact ⟨hlogic, by simp [detect_mood_from_frame, hf, hlogic]⟩
  · have h0 : ¬ f.faces = 0 := by omega
    have hs2 : ¬ f.smiles > 0 := by omega
    have he2 : ¬ f.eyes ≥ 2 := by omega
    have hlogic : simple_emotion_logic f = some "sad" := by
      simp [simple_emotion_logic, h0, hs2, he2]
    exact ⟨hlogic, by simp [detect_mood_from_frame, hf, hlogic]⟩

/-- Witness for C1_mood_inference at concrete detector counts. -/
theorem C1_witness :
    simple_emotion_logic ⟨1, 2, 0⟩ = some "happy" ∧
    simple_emotion_logic ⟨1, 0, 2⟩ = some "neutral" ∧
    simple_emotion_logic ⟨1, 0, 1⟩ = some "sad" ∧
    simple_emotion_logic ⟨0, 0, 0⟩ = Option.none :=
  ⟨((C1_mood_inference ⟨1, 2, 0⟩ ⟨0, 0⟩ 0).2.1 (by decide) (by decide)).1,
   ((C1_mood_inference ⟨1, 0, 2⟩ ⟨0, 0⟩ 0).2.2.1 (by decide) (by decide)
      (by decide)).1,
   ((C1_mood_inference ⟨1, 0, 1⟩ ⟨0, 0⟩ 0).2.2.2 (by decide) (by decide)
      (by decide)).1,
   ((C1_mood_inference ⟨0, 0, 0⟩ ⟨0, 0⟩ 0).1 (by decide)).1⟩

/-- Helper: when the gate runner confirms at position `i` starting from a
state below the threshold, the confirming attempt is the element at index
`i - i0 - 1` of the remaining list and carries exactly the confirmed
label. -/
lemma gate_runAux_label (l : List (Option String)) :
    ∀ (s : GateState) (i0 : Nat) (m : String) (i : Nat),
      s.mood_stability_count < required_stability →
      gate_runAux s i0 l = some (m, i) →
      ∃ j, i = i0 + j + 1 ∧ l[j]? = some (some m) := by
  induction l with
  | nil =>
      intro s i0 m i hc h
      simp [gate_runAux] at h
  | cons d rest ih =>
      intro s i0 m i hc h
      unfold gate_runAux at h
      by_cases hge :
          (gate_step s d).mood_stability_count ≥ required_stability
      · rw [if_pos hge] at h
        rcases d with _ | m2
        · simp only [gate_step] at hge
          omega
        · have hlm : (gate_step s (some m2)).last_mood = some m2 := by
            by_cases hsame : s.last_mood = some m2
            · simp [gate_step, hsame]
            · simp [gate_step, hsame]
          rw [hlm] at h
          simp only [Option.getD_some, Option.some.injEq, Prod.mk.injEq]
            at h
          exact ⟨0, by omega, by simp [h.1]⟩
      · rw [if_neg hge] at h
        have hc2 :
            (gate_step s d).mood_stability_count < required_stability := by
          omega
        obtain ⟨j, hj, hget⟩ := ih (gate_step s d) (i0 + 1) m i hc2 h
        exact ⟨j + 1, by omega, by simpa using hget⟩

/-- Claim C2: the stability gate ignores none attempts, increments the
counter on a repeated label, resets to 1 on a changed label, confirms the
instant the counter reaches the threshold 3 with the label that triggered
that increment, and on the two example sequences confirms sad exactly at
the 5th element (never earlier) and happy at the 4th. -/
theorem C2_stability_gate :
    (∀ s : GateState, gate_step s Option.none = s) ∧
    (∀ (s : GateState) (m : String), s.last_mood = some m →
      gate_step s (some m) = ⟨some m, s.mood_stability_count + 1⟩) ∧
    (∀ (s : GateState) (m : String), s.last_mood ≠ some m →
      gate_step s (some m) = ⟨some m, 1⟩) ∧
    (∀ (l : List (Option String)) (m : String) (i : Nat),
      detect_mood_single_cycle l = some (m, i) →
      ∃ j, i = j + 1 ∧ l[j]? = some (some m)) ∧
    detect_mood_single_cycle
      [some "happy", some "happy", some "sad", some "sad", some "sad"] =
      some ("sad", 5) ∧
    (∀ k < 5, detect_mood_single_cycle
      (([some "happy", some "happy", some "sad", some "sad",
         some "sad"] : List (Option String)).take k) = Option.none) ∧
    detect_mood_single_cycle
      [some "happy", Option.none, some "happy", some "happy"] =
      some ("happy", 4) := by
  refine ⟨fun s => rfl, fun s m h => ?_, fun s m h => ?_, ?_, by decide,
    by decide, by decide⟩
  · simp [gate_step, h]
  · simp [gate_step, h]
  · intro l m i h
    have h2 := gate_runAux_label l ⟨Option.none, 0⟩ 0 m i
      (by simp [required_stability]) h
    simpa using h2

/-- Witness for C2_stability_gate at concrete states and sequences. -/
theorem C2_witness :
    gate_step ⟨some "happy", 1⟩ (some "happy") = ⟨some "happy", 2⟩ ∧
    gate_step ⟨some "happy", 2⟩ (some "sad") = ⟨some "sad", 1⟩ ∧
    (∃ j, (5 : Nat) = j + 1 ∧
      ([some "happy", some "happy", some "sad", some "sad",
        some "sad"] : List (Option String))[j]? = some (some "sad")) ∧
    detect_mood_single_cycle
      (([some "happy", some "happy", some "sad", some "sad",
         some "sad"] : List (Option String)).take 4) = Option.none :=
  ⟨C2_stability_gate.2.1 ⟨some "happy", 1⟩ "happy" rfl,
   C2_stability_gate.2.2.1 ⟨some "happy", 2⟩ "sad" (by decide),
   C2_stability_gate.2.2.2.1 _ "sad" 5 (by decide),
   C2_stability_gate.2.2.2.2.2.1 4 (by decide)⟩

/-- Claim C7: the demo rotation advances the index by one modulo 5 and
stamps the current time exactly when more than 10 seconds have elapsed
since the last advance, otherwise leaves the state unchanged, and in both
cases returns the label of the fixed five-label list at the resulting
index. -/
theorem C7_rotation (s : RotationState) (t : Int) :
    emotions = ["happy", "sad", "neutral", "angry", "surprise"] ∧
    (t - s.last_emotion_time > 10 →
      demo_emotion_rotation s t =
        (emotions.getD ((s.current_emotion_index + 1) % 5) "",
         ⟨(s.current_emotion_index + 1) % 5, t⟩)) ∧
    (¬ t - s.last_emotion_time > 10 →
      demo_emotion_rotation s t =
        (emotions.getD s.current_emotion_index "", s)) ∧
    (demo_emotion_rotation s t).1 =
      emotions.getD (demo_emotion_rotation s t).2.current_emotion_index
        "" := by
  refine ⟨rfl, fun h => ?_, fun h => ?_, ?_⟩
  · simp [demo_emotion_rotation, emotion_duration, emotions, h]
  · simp [demo_emotion_rotation, emotion_duration, h]
  · unfold demo_emotion_rotation
    split <;> simp

/-- Witness for C7_rotation: from index 0 with last advance at time 0, at
time 11 the rotation advances to sad and stamps 11; at time 10 it stays on
happy with the state unchanged. -/
theorem C7_witness :
    demo_emotion_rotation ⟨0, 0⟩ 11 = ("sad", ⟨1, 11⟩) ∧
    demo_emotion_rotation ⟨0, 0⟩ 10 = ("happy", ⟨0, 0⟩) :=
  ⟨((C7_rotation ⟨0, 0⟩ 11).2.1 (by decide)).trans (by decide),
   ((C7_rotation ⟨0, 0⟩ 10).2.2.1 (by decide)).trans (by decide)⟩

/-- Claim C9: get_mood_keywords returns the mapped keyword list for any
mood present in MOOD_MAPPING, the neutral list for any other string, and
never returns the empty list. -/
theorem C9_keywords (m : String) :
    (∀ ks, MOOD_MAPPING.lookup m = some ks → get_mood_keywords m = ks) ∧
    (MOOD_MAPPING.lookup m = Option.none →
      get_mood_keywords m =
        ["chill", "lofi", "background", "study", "focus"]) ∧
    get_mood_keywords m ≠ [] := by
  have hne : ∀ ks, MOOD_MAPPING.lookup m = some ks → ks ≠ [] := by
    intro ks h
    simp only [MOOD_MAPPING, List.lookup] at h
    repeat' split at h
    all_goals first
      | (cases h; decide)
      | simp_all
  refine ⟨fun ks h => by simp [get_mood_keywords, h], fun h => ?_, ?_⟩
  · simp only [get_mood_keywords, h]
    rfl
  · rcases h : MOOD_MAPPING.lookup m with _ | ks
    · simp only [get_mood_keywords, h]
      decide
    · have h2 := hne ks h
      simpa [get_mood_keywords, h] using h2

/-- Witness for C9_keywords at a mapped mood and an unmapped mood. -/
theorem C9_witness :
    get_mood_keywords "happy" =
      ["happy", "party", "upbeat", "energetic", "dance"] ∧
    get_mood_keywords "unknown" =
      ["chill", "lofi", "background", "study", "focus"] ∧
    get_mood_keywords "unknown" ≠ [] :=
  ⟨(C9_keywords "happy").1 _ (by decide),
   (C9_keywords "unknown").2.1 (by decide),
   (C9_keywords "unknown").2.2⟩

/-- Helper: truthiness of a dictionary value is non-emptiness. -/
lemma pyTruthy_dict (d : List (String × PyVal)) :
    pyTruthy (PyVal.dict d) = !d.isEmpty := rfl

/-- Helper: a truthy dictionary entry forces the dictionary itself to be
non-empty (a lookup in an empty dictionary yields the falsy default). -/
lemma pyTruthy_pyGet_nonempty (d : List (String × PyVal)) (k : String) :
    pyTruthy (pyGet d k) = true → d.isEmpty = false := by
  rcases d with _ | ⟨a, d⟩
  · intro h
    simp [pyGet, pyGetD, pyTruthy] at h
  · intro _
    rfl

/-- Helper: a tracks dictionary whose total (defaulting to the number 0)
is not Python-equal to 0 cannot be empty. -/
lemma total_nonzero_nonempty (td : List (String × PyVal)) :
    pyEqZero (pyGetD td "total" (.int 0)) = false → td.isEmpty = false := by
  rcases td with _ | ⟨a, td⟩
  · intro h
    simp [pyGetD, pyEqZero] at h
  · intro _
    rfl

/-- A raw search-result dictionary with a track total of -1.  The code
accepts it, while claim C3 requires total > 0 for acceptance. -/
def c3_example : List (String × PyVal) :=
  [("name", .str "Chill Mix"),
   ("external_urls",
    .dict [("spotify", .str "https://open.spotify.com/playlist/abc")]),
   ("tracks", .dict [("total", .int (-1))]),
   ("owner", .dict [("id", .str "user1")])]

/-- Claim C3, as stated, is false: the raw result c3_example (track total
-1, everything else well-formed) fails the claimed condition total > 0 yet
is accepted by the validation step rather than dropped. -/
theorem C3_counterexample :
    is_valid_playlist c3_example = true ∧ spec_accepts c3_example = false :=
  ⟨rfl, rfl⟩

/-- Claim C3 (amended): a raw search result is accepted if and only if it
has a truthy (non-empty) name, an external_urls dictionary whose spotify
entry is truthy, a tracks dictionary whose total entry (defaulting to the
number 0) is not Python-equal to 0, and a non-empty owner dictionary;
every result failing any of these conditions is dropped. -/
theorem C3_validation (p : List (String × PyVal)) :
    is_valid_playlist p = true ↔
      (pyTruthy (pyGet p "name") = true ∧
       (∃ ed, pyGet p "external_urls" = PyVal.dict ed ∧
         pyTruthy (pyGet ed "spotify") = true) ∧
       (∃ td, pyGet p "tracks" = PyVal.dict td ∧
         pyEqZero (pyGetD td "total" (.int 0)) = false) ∧
       (∃ od, pyGet p "owner" = PyVal.dict od ∧ od.isEmpty = false)) := by
  constructor
  · intro h
    unfold is_valid_playlist at h
    split_ifs at h with h1 h2 h3 h4 h5
    repeat' split at h
    all_goals simp_all [pyTruthy]
  · rintro ⟨hn, ⟨ed, hed, hsp⟩, ⟨td, htd, htot⟩, ⟨od, hod, hodne⟩⟩
    have hp : p.isEmpty = false := pyTruthy_pyGet_nonempty p "name" hn
    have hedne : ed.isEmpty = false := pyTruthy_pyGet_nonempty ed _ hsp
    have htdne : td.isEmpty = false := total_nonzero_nonempty td htot
    unfold is_valid_playlist
    simp [hp, hn, hed, htd, hod, hsp, htot, hedne, htdne, hodne,
      pyTruthy_dict]

/-- Helper: the de-duplication loop with `seen` urls already recorded
computes the spec-side first-occurrence de-duplication of the sublist of
candidates whose url is unseen, provided all urls are non-empty. -/
lemma remove_duplicatesAux_eq (l : List PlaylistInfo) :
    ∀ seen : List String, (∀ p ∈ l, p.url ≠ "") →
      remove_duplicatesAux seen l =
        dedup_first_by_url (l.filter (fun p => decide (p.url ∉ seen))) := by
  induction l with
  | nil =>
      intro seen h
      simp [remove_duplicatesAux, dedup_first_by_url]
  | cons p rest ih =>
      intro seen h
      have hp : p.url ≠ "" := h p (by simp)
      have hrest : ∀ q ∈ rest, q.url ≠ "" := fun q hq => h q (by simp [hq])
      by_cases hseen : p.url ∈ seen
      · rw [remove_duplicatesAux, if_neg (by tauto),
          List.filter_cons_of_neg (by simpa using hseen)]
        exact ih seen hrest
      · rw [remove_duplicatesAux, if_pos ⟨hp, hseen⟩,
          List.filter_cons_of_pos (by simpa using hseen),
          dedup_first_by_url, ih (p.url :: seen) hrest, List.filter_filter]
        have hfil : List.filter (fun q => decide (q.url ∉ p.url :: seen))
            rest =
            List.filter
              (fun a => decide (a.url ≠ p.url) && decide (a.url ∉ seen))
              rest := by
          apply List.filter_congr
          intro q hq
          by_cases h1 : q.url = p.url <;> by_cases h2 : q.url ∈ seen <;>
            simp [h1, h2]
        rw [hfil]

/-- Helper: the de-duplicated list is a subsequence of the input. -/
lemma remove_duplicatesAux_sublist (l : List PlaylistInfo) :
    ∀ seen : List String, (remove_duplicatesAux seen l).Sublist l := by
  induction l with
  | nil =>
      intro seen
      simp [remove_duplicatesAux]
  | cons p rest ih =>
      intro seen
      rw [remove_duplicatesAux]
      split
      · exact (ih _).cons₂ p
      · exact (ih seen).cons p

/-- Claim C4: on candidate lists with non-empty urls, de-duplication keeps
exactly the first candidate bearing each URL value, discarding later ones,
and the survivors appear in first-seen order (the output is a subsequence
of the input). -/
theorem C4_dedup (l : List PlaylistInfo) (h : ∀ p ∈ l, p.url ≠ "") :
    remove_duplicates l = dedup_first_by_url l ∧
    (remove_duplicates l).Sublist l := by
  constructor
  · rw [remove_duplicates, remove_duplicatesAux_eq l [] h]
    congr 1
    apply List.filter_eq_self.mpr
    simp
  · exact remove_duplicatesAux_sublist l []

/-- Two candidates sharing one URL but differing in name. -/
def c4_first : PlaylistInfo :=
  ⟨"First", "https://open.spotify.com/playlist/x", "d1", 12, "o1", ""⟩

/-- Second candidate with the same URL as c4_first. -/
def c4_second : PlaylistInfo :=
  ⟨"Second", "https://open.spotify.com/playlist/x", "d2", 7, "o2", ""⟩

/-- Witness for C4_dedup: of two candidates with identical URL but
different names, exactly the first survives. -/
theorem C4_witness :
    remove_duplicates [c4_first, c4_second] =
      dedup_first_by_url [c4_first, c4_second] ∧
    remove_duplicates [c4_first, c4_second] = [c4_first] :=
  ⟨(C4_dedup [c4_first, c4_second] (by decide)).1, by decide⟩

/-- Claim C5: whenever the de-duplicated candidate list is non-empty, the
pool handed to random selection is the subset with at least 10 tracks when
that subset is non-empty and the full list otherwise, so it is never
empty; and the recommendation function applies the random choice exactly
to that pool. -/
theorem C5_quality_filter (playlists : List PlaylistInfo)
    (h : playlists ≠ []) :
    quality_pool playlists ≠ [] ∧
    quality_pool playlists =
      (if playlists.filter (fun p => 10 ≤ p.tracks_count) = [] then
        playlists
      else playlists.filter (fun p => 10 ≤ p.tracks_count)) ∧
    (∀ (authenticated : Bool)
      (collected : String → Nat → List PlaylistInfo)
      (choice : List PlaylistInfo → Option PlaylistInfo)
      (mood_keywords : List String),
      mood_keywords ≠ [] →
      search_mood_playlists authenticated collected
        (PyVal.list (mood_keywords.map PyVal.str)) 20 = playlists →
      get_mood_playlist_recommendation authenticated collected choice
        mood_keywords = choice (quality_pool playlists)) := by
  have hchar : quality_pool playlists =
      if (playlists.filter (fun p => 10 ≤ p.tracks_count)).isEmpty then
        playlists
      else playlists.filter (fun p => 10 ≤ p.tracks_count) := rfl
  refine ⟨?_, ?_, ?_⟩
  · by_cases hq : playlists.filter (fun p => 10 ≤ p.tracks_count) = []
    · rw [hchar, if_pos (by simp [hq])]
      exact h
    · rw [hchar, if_neg (by simpa [List.isEmpty_iff] using hq)]
      exact hq
  · by_cases hq : playlists.filter (fun p => 10 ≤ p.tracks_count) = []
    · rw [hchar, if_pos (by simp [hq]), if_pos hq]
    · rw [hchar, if_neg (by simpa [List.isEmpty_iff] using hq), if_neg hq]
  · intro authenticated collected choice mood_keywords hkw hsearch
    have h1 : mood_keywords.isEmpty = false := by
      simpa [List.isEmpty_iff] using hkw
    have h2 : playlists.isEmpty = false := by
      simpa [List.isEmpty_iff] using h
    simp [get_mood_playlist_recommendation, h1, hsearch, h2]

/-- Candidate with 5 tracks (spec example for the quality fallback). -/
def c5_p1 : PlaylistInfo :=
  ⟨"P1", "https://open.spotify.com/playlist/1", "", 5, "o", ""⟩

/-- Candidate with 8 tracks. -/
def c5_p2 : PlaylistInfo :=
  ⟨"P2", "https://open.spotify.com/playlist/2", "", 8, "o", ""⟩

/-- Candidate with 3 tracks. -/
def c5_p3 : PlaylistInfo :=
  ⟨"P3", "https://open.spotify.com/playlist/3", "", 3, "o", ""⟩

/-- Witness for C5_quality_filter: with track counts [5, 8, 3] none meet
the threshold, so selection draws from all three candidates. -/
theorem C5_witness :
    quality_pool [c5_p1, c5_p2, c5_p3] ≠ [] ∧
    quality_pool [c5_p1, c5_p2, c5_p3] = [c5_p1, c5_p2, c5_p3] :=
  ⟨(C5_quality_filter [c5_p1, c5_p2, c5_p3] (by decide)).1,
   ((C5_quality_filter [c5_p1, c5_p2, c5_p3] (by decide)).2.1).trans
     (by decide)⟩

/-- Claim C6: when the mood-specific search yields zero candidates, the
pipeline is retried exactly once with the fixed generic keyword list
music / playlist / songs (at limit 10), and when that retry also yields
zero candidates the result is no recommendation rather than an error. -/
theorem C6_generic_fallback (authenticated : Bool)
    (collected : String → Nat → List PlaylistInfo)
    (choice : List PlaylistInfo → Option PlaylistInfo)
    (mood_keywords : List String)
    (hkw : mood_keywords ≠ [])
    (hempty : search_mood_playlists authenticated collected
      (PyVal.list (mood_keywords.map PyVal.str)) 20 = []) :
    get_mood_playlist_recommendation authenticated collected choice
      mood_keywords =
      (if search_mood_playlists authenticated collected
          (PyVal.list [PyVal.str "music", PyVal.str "playlist",
            PyVal.str "songs"]) 10 = [] then
        Option.none
      else
        choice (quality_pool (search_mood_playlists authenticated
          collected
          (PyVal.list [PyVal.str "music", PyVal.str "playlist",
            PyVal.str "songs"]) 10))) := by
  have h1 : mood_keywords.isEmpty = false := by
    simpa [List.isEmpty_iff] using hkw
  by_cases hg : search_mood_playlists authenticated collected
      (PyVal.list [PyVal.str "music", PyVal.str "playlist",
        PyVal.str "songs"]) 10 = [] <;>
    simp [get_mood_playlist_recommendation, h1, hempty, hg,
      List.isEmpty_iff]

/-- Witness for C6_generic_fallback: with a search that never collects
anything, the recommendation for the happy keywords is none. -/
theorem C6_witness :
    get_mood_playlist_recommendation true (fun _ _ => [])
      (fun l => l.head?) ["happy"] = Option.none :=
  (C6_generic_fallback true (fun _ _ => []) (fun l => l.head?) ["happy"]
    (by decide) rfl).trans (if_pos rfl)

/-- Helper: every candidate surviving the de-duplication loop has a
non-empty url outside `seen`, and the surviving urls are pairwise
distinct. -/
lemma remove_duplicatesAux_urls (l : List PlaylistInfo) :
    ∀ seen : List String,
      (∀ p ∈ remove_duplicatesAux seen l, p.url ≠ "" ∧ p.url ∉ seen) ∧
      ((remove_duplicatesAux seen l).map PlaylistInfo.url).Nodup := by
  induction l with
  | nil =>
      intro seen
      simp [remove_duplicatesAux]
  | cons p rest ih =>
      intro seen
      rw [remove_duplicatesAux]
      split
      · next hcond =>
          obtain ⟨hne, hnotseen⟩ := hcond
          constructor
          · intro q hq
            rcases List.mem_cons.mp hq with rfl | hq2
            · exact ⟨hne, hnotseen⟩
            · have h2 := (ih (p.url :: seen)).1 q hq2
              exact ⟨h2.1, fun hmem => h2.2 (List.mem_cons_of_mem _ hmem)⟩
          · simp only [List.map_cons, List.nodup_cons]
            refine ⟨?_, (ih (p.url :: seen)).2⟩
            intro hmem
            obtain ⟨q, hq, hqu⟩ := List.mem_map.mp hmem
            exact ((ih (p.url :: seen)).1 q hq).2 (by simp [hqu])
      · exact ⟨fun q hq => (ih seen).1 q hq, (ih seen).2⟩

/-- Claim C10: every list returned by search_mood_playlists has only
candidates with non-empty urls, those urls are pairwise distinct, and an
unauthenticated client, an empty keyword list or a non-list keyword
argument each produce the empty list. -/
theorem C10_search_invariants :
    (∀ (a : Bool) (c : String → Nat → List PlaylistInfo) (kw : PyVal)
      (n : Nat) (p : PlaylistInfo),
      p ∈ search_mood_playlists a c kw n → p.url ≠ "") ∧
    (∀ (a : Bool) (c : String → Nat → List PlaylistInfo) (kw : PyVal)
      (n : Nat),
      ((search_mood_playlists a c kw n).map PlaylistInfo.url).Nodup) ∧
    (∀ c kw n, search_mood_playlists false c kw n = []) ∧
    (∀ a c n, search_mood_playlists a c (PyVal.list []) n = []) ∧
    (∀ a c s n, search_mood_playlists a c (PyVal.str s) n = []) ∧
    (∀ a c m n, search_mood_playlists a c (PyVal.int m) n = []) ∧
    (∀ a c d n, search_mood_playlists a c (PyVal.dict d) n = []) ∧
    (∀ a c n, search_mood_playlists a c PyVal.none n = []) := by
  have hbody : ∀ (a : Bool) (c : String → Nat → List PlaylistInfo)
      (kw : PyVal) (n : Nat),
      search_mood_playlists a c kw n = [] ∨
      ∃ l, search_mood_playlists a c kw n = remove_duplicates l := by
    intro a c kw n
    by_cases ha : a = true
    · rcases kw with _ | s | m | d | ks
      · exact Or.inl (by simp [search_mood_playlists])
      · exact Or.inl (by simp [search_mood_playlists])
      · exact Or.inl (by simp [search_mood_playlists])
      · exact Or.inl (by simp [search_mood_playlists])
      · by_cases hks : ks.isEmpty = true
        · exact Or.inl (by simp [search_mood_playlists, hks])
        · exact Or.inr ⟨all_playlists c ks n,
            by simp [search_mood_playlists, ha, hks]⟩
    · have ha2 : a = false := by
        simpa using ha
      exact Or.inl (by simp [search_mood_playlists, ha2])
  refine ⟨?_, ?_, ?_, ?_, ?_, ?_, ?_, ?_⟩
  · intro a c kw n p hp
    rcases hbody a c kw n with hb | ⟨l, hb⟩
    · rw [hb] at hp
      simp at hp
    · rw [hb] at hp
      exact ((remove_duplicatesAux_urls l []).1 p hp).1
  · intro a c kw n
    rcases hbody a c kw n with hb | ⟨l, hb⟩
    · simp [hb]
    · rw [hb]
      exact (remove_duplicatesAux_urls l []).2
  · intro c kw n
    simp [search_mood_playlists]
  · intro a c n
    simp [search_mood_playlists]
  · intro a c s n
    simp [search_mood_playlists]
  · intro a c m n
    simp [search_mood_playlists]
  · intro a c d n
    simp [search_mood_playlists]
  · intro a c n
    simp [search_mood_playlists]

/-- A candidate used to exercise the search invariants. -/
def c10_p : PlaylistInfo :=
  ⟨"P", "https://open.spotify.com/playlist/p", "", 15, "o", ""⟩

/-- Witness for C10_search_invariants: a duplicated collected candidate
appears once, with its non-empty url, and the unauthenticated call yields
the empty list. -/
theorem C10_witness :
    c10_p.url ≠ "" ∧
    ((search_mood_playlists true (fun _ _ => [c10_p, c10_p])
        (PyVal.list [PyVal.str "k"]) 10).map PlaylistInfo.url).Nodup ∧
    search_mood_playlists false (fun _ _ => [c10_p])
      (PyVal.str "k") 10 = [] :=
  ⟨C10_search_invariants.1 true (fun _ _ => [c10_p, c10_p])
      (PyVal.list [PyVal.str "k"]) 10 c10_p (by decide),
   C10_search_invariants.2.1 true (fun _ _ => [c10_p, c10_p])
      (PyVal.list [PyVal.str "k"]) 10,
   C10_search_invariants.2.2.1 (fun _ _ => [c10_p]) (PyVal.str "k") 10⟩

/-- Claim C8: a URL is handed to the browser facility exactly when the
input is a string starting with the expected public playlist URL prefix
(in which case the result is the success of that attempt); every other
input yields false with no attempt. -/
theorem C8_open_url (openAttempt : String → Bool) (v : PyVal) :
    (∀ s, py_startswith s "https://open.spotify.com/" = true →
      open_playlist_in_browser openAttempt (PyVal.str s) =
        (openAttempt s, [s])) ∧
    (∀ s, py_startswith s "https://open.spotify.com/" = false →
      open_playlist_in_browser openAttempt (PyVal.str s) = (false, [])) ∧
    open_playlist_in_browser openAttempt PyVal.none = (false, []) ∧
    (∀ n : Int,
      open_playlist_in_browser openAttempt (PyVal.int n) = (false, [])) ∧
    (∀ d,
      open_playlist_in_browser openAttempt (PyVal.dict d) = (false, [])) ∧
    (∀ l,
      open_playlist_in_browser openAttempt (PyVal.list l) = (false, [])) ∧
    ((open_playlist_in_browser openAttempt v).1 = true ↔
      (open_playlist_in_browser openAttempt v).2 ≠ [] ∧
      ∃ s, v = PyVal.str s ∧ openAttempt s = true) := by
  refine ⟨fun s h => ?_, fun s h => ?_, rfl, fun n => rfl, fun d => rfl,
    fun l => rfl, ?_⟩
  · have hs : ¬ s = "" := by
      intro he
      rw [he] at h
      exact absurd h (by decide)
    simp [open_playlist_in_browser, hs, h]
  · by_cases hs : s = ""
    · simp [open_playlist_in_browser, hs]
    · simp [open_playlist_in_browser, hs, h]
  · rcases v with _ | s | n | d | l
    · simp [open_playlist_in_browser]
    · by_cases hs : s = ""
      · simp [open_playlist_in_browser, hs]
      · by_cases hw : py_startswith s "https://open.spotify.com/" = true
        · simp [open_playlist_in_browser, hs, hw]
        · simp [open_playlist_in_browser, hs, hw]
    · simp [open_playlist_in_browser]
    · simp [open_playlist_in_browser]
    · simp [open_playlist_in_browser]

set_option maxRecDepth 8192 in
/-- Witness for C8_open_url: a well-formed playlist URL is attempted and
succeeds; a URL with the wrong scheme is rejected without an attempt. -/
theorem C8_witness :
    open_playlist_in_browser (fun _ => true)
      (PyVal.str "https://open.spotify.com/playlist/abc") =
      (true, ["https://open.spotify.com/playlist/abc"]) ∧
    open_playlist_in_browser (fun _ => true)
      (PyVal.str "http://example.com") = (false, []) :=
  ⟨(C8_open_url (fun _ => true) PyVal.none).1
      "https://open.spotify.com/playlist/abc" (by decide),
   (C8_open_url (fun _ => true) PyVal.none).2.1
      "http://example.com" (by decide)⟩

end MoodSpec
